import Mathlib

/-!
Shallow embedding of the client-side session manager in
`src/client/src/context/AuthContext.jsx` (Innoh-25/Chat_App).

State model: the `AuthProvider` React component owns three state cells
(`user`, `loading`, `token`) and two external side-effect cells that the
code mutates in lockstep with `token`: the axios default `Authorization`
header (the attached credential) and the `localStorage` entry under the
key `token` (the persisted token).  The `useEffect` keyed on `[token]`
(lines 44-52) is modelled by `applyTokenEffect`, applied synchronously
whenever `setToken` runs, which matches the observable state after the
React commit settles.

JavaScript truthiness matters: `if (token)` and `if (_VITE_API)` are
false both for `null`/`undefined` (modelled `none`) and for the empty
string (modelled `some ""`); `truthy` captures exactly that test.

Remote calls are modelled by passing their outcome as an explicit
argument (an `Except` / outcome value): the embedded operation is the
continuation the code runs once the awaited promise settles.  All
operations are total Lean functions, reflecting that every `await` in
the source sits inside `try`/`catch` (or its rejection is surfaced as
the documented failure result), so no operation throws outward.
-/

namespace ChatApp

/-- Opaque user profile returned by the auth service; the code never
inspects it beyond storing it wholesale (`setUser(user)`). -/
structure UserProfile where
  id : Nat
  name : String
deriving DecidableEq

/-- Observable state of the session manager: the three React state cells
of `AuthProvider` plus the two side-effect cells kept in lockstep with
`token` (axios default `Authorization` header, `localStorage` entry
under the well-known key `token`). -/
structure St where
  token : Option String
  user : Option UserProfile
  loading : Bool
  authHeader : Option String
  storage : Option String
deriving DecidableEq

/-- JavaScript truthiness of a nullable string: `null`/`undefined` and
`""` are falsy, every other string is truthy. -/
def truthy : Option String → Bool
  | none => false
  | some s => !s.isEmpty

/-- The `useEffect` on `[token]` (lines 44-52): if `token` is truthy,
set `axios.defaults.headers.common['Authorization'] = Bearer <token>`
and `localStorage.setItem('token', token)`; otherwise delete the header
and `localStorage.removeItem('token')`. -/
def applyTokenEffect (s : St) : St :=
  match s.token with
  | some t =>
      if t.isEmpty then { s with authHeader := none, storage := none }
      else { s with authHeader := some ("Bearer " ++ t), storage := some t }
  | none => { s with authHeader := none, storage := none }

/-- A `setToken` call together with the token effect it triggers. -/
def setToken (s : St) (t : Option String) : St :=
  applyTokenEffect { s with token := t }

/-- Success payload `{ user, token }` of the login/register endpoints. -/
structure AuthPayload where
  user : UserProfile
  token : String
deriving DecidableEq

/-- A rejected axios call; `reason` models `error.response?.data?.error`
(`none` when the chain is absent, `some r` when the payload carries an
`error` field). -/
structure RemoteError where
  reason : Option String
deriving DecidableEq

/-- The discriminated result object `login`/`register` resolve to:
`{ success: true, user }` or `{ success: false, error }`. -/
inductive AuthResult where
  | ok (user : UserProfile)
  | fail (error : String)
deriving DecidableEq

/-- The expression `error.response?.data?.error || '<default>'`:
JavaScript `||` falls through to the default on a missing reason and
also on an empty-string reason (falsy). -/
def errMessage (dflt : String) (e : RemoteError) : String :=
  match e.reason with
  | some r => if r.isEmpty then dflt else r
  | none => dflt

/-- `login(email, password)` (lines 76-92), given the outcome of the
awaited `POST /auth/login`: on resolve, `setUser(user)` then
`setToken(token)` (with its effect) and return `{ success: true, user }`;
on reject, mutate nothing and return `{ success: false, error }`. -/
def login (s : St) (outcome : Except RemoteError AuthPayload) :
    St × AuthResult :=
  match outcome with
  | Except.ok p => (setToken { s with user := some p.user } (some p.token), AuthResult.ok p.user)
  | Except.error e => (s, AuthResult.fail (errMessage "Login failed" e))

/-- `register(username, email, password)` (lines 94-111), given the
outcome of the awaited `POST /auth/register`; same body as `login` up to
the request issued and the fallback message. -/
def register (s : St) (outcome : Except RemoteError AuthPayload) :
    St × AuthResult :=
  match outcome with
  | Except.ok p => (setToken { s with user := some p.user } (some p.token), AuthResult.ok p.user)
  | Except.error e => (s, AuthResult.fail (errMessage "Registration failed" e))

/-- `logout()` (lines 113-123): the outcome of the awaited
`POST /auth/logout` (`remoteOk`) is ignored; the `finally` block runs
`setUser(null)`, `setToken(null)` (whose effect detaches the header and
removes the stored token) and `localStorage.removeItem('token')`. -/
def logout (s : St) (remoteOk : Bool) : St :=
  let s1 := setToken { s with user := none } none
  { s1 with storage := none }

/-- Outcome of the awaited `GET /auth/me`: the promise resolves (with
`response.data.user`, possibly `undefined` when the field is missing)
or rejects. -/
inductive RestoreOutcome where
  | ok (user : Option UserProfile)
  | err
deriving DecidableEq

/-- `checkAuth()` (lines 59-74): if `!token`, just `setLoading(false)`
and return without issuing the remote call; otherwise await
`GET /auth/me`; on resolve `setUser(response.data.user)`, on reject run
`logout()`; either way `finally` runs `setLoading(false)`.  The returned
`Bool` records whether the who-am-I remote call was issued.  The
function is total: every failure is absorbed, none propagates. -/
def checkAuth (s : St) (o : RestoreOutcome) (remoteOk : Bool) :
    St × Bool :=
  if truthy s.token then
    match o with
    | RestoreOutcome.ok u => ({ s with user := u, loading := false }, true)
    | RestoreOutcome.err => ({ logout s remoteOk with loading := false }, true)
  else
    ({ s with loading := false }, false)

/-- `handleOAuthSuccess(token, userData)` (lines 125-128): `setToken`
(with its effect) then `setUser`; no remote call. -/
def handleOAuthSuccess (s : St) (t : String) (u : UserProfile) : St :=
  let s1 := setToken s (some t)
  { s1 with user := some u }

/-- Initial React state of `AuthProvider` (lines 39-41): `user = null`,
`loading = true`, `token = localStorage.getItem('token')`; the axios
defaults of a fresh process carry no `Authorization` header, and the
persistence store holds whatever was read. -/
def initState (stored : Option String) : St :=
  { token := stored, user := none, loading := true,
    authHeader := none, storage := stored }

/-- Construction of the session manager: initial state, then the mount
run of the `[token]` effect, then the mount `checkAuth()` call. -/
def mount (stored : Option String) (o : RestoreOutcome) (remoteOk : Bool) :
    St × Bool :=
  checkAuth (applyTokenEffect (initState stored)) o remoteOk

/-- The regex replace `\/+$ -> ''` of lines 10: drop every trailing
`/` character. -/
def stripTrailingSlashes (v : String) : String :=
  String.mk ((v.data.reverse.dropWhile (fun c => c == '/')).reverse)

/-- JavaScript `s.endsWith(suffix)`, as a suffix test on the character
lists of the two strings. -/
def endsWithStr (s suffix : String) : Bool :=
  suffix.data.isSuffixOf s.data

/-- The module-load computation of `API_URL` (lines 6-28) as a pure
function of `import.meta.env.VITE_API_URL` and
`window.location.origin` (`none` outside a browser): if the env value
is truthy, strip trailing slashes and append `/api` unless the trimmed
value already ends in `/api`; otherwise fall back to the origin plus
`/api`, or to the relative `/api` when there is no window. -/
def API_URL (vite : Option String) (origin : Option String) : String :=
  if truthy vite then
    let trimmed := stripTrailingSlashes (vite.getD "")
    if endsWithStr trimmed "/api" then trimmed else trimmed ++ "/api"
  else
    match origin with
    | some o => o ++ "/api"
    | none => "/api"

/-- The fallback named by the claim: current origin plus `/api`, or the
relative path `/api` outside a browser. -/
def originFallback : Option String → String
  | some o => o ++ "/api"
  | none => "/api"

/-- Modelled from the claim's words, for comparison with `API_URL`:
when the environment value is set (to a non-empty string), strip all
trailing slashes and suffix `/api` unless the result already ends in
`/api`; when unset, use the origin fallback. -/
def API_URL_fromClaim (vite : Option String) (origin : Option String) :
    String :=
  match vite with
  | some v =>
      if v.isEmpty then originFallback origin
      else
        let stripped := stripTrailingSlashes v
        if endsWithStr stripped "/api" then stripped else stripped ++ "/api"
  | none => originFallback origin

/-- The spec's session invariant, as a decidable check: whenever `user`
is non-empty, `token` is non-empty as well (token-without-user is the
permitted asymmetry). -/
def invB (s : St) : Bool :=
  !s.user.isSome || s.token.isSome

/-- The pairing invariant, as a decidable check: a truthy `token` is
mirrored exactly by the `Authorization: Bearer <token>` header and the
persisted value; a falsy `token` (null or empty) by an absent header
and an absent persisted key. -/
def pairedB (s : St) : Bool :=
  match s.token with
  | some t =>
      if t.isEmpty then s.authHeader == none && s.storage == none
      else s.authHeader == some ("Bearer " ++ t) && s.storage == some t
  | none => s.authHeader == none && s.storage == none

/-- A concrete anonymous state used by witnesses and counterexamples. -/
def anonSt : St :=
  { token := none, user := none, loading := false,
    authHeader := none, storage := none }

lemma truthy_isSome {x : Option String} (h : truthy x = true) :
    x.isSome = true := by
  cases x <;> simp [truthy] at h ⊢

/-- C1 counterexample: when `POST /auth/login` resolves successfully
with the payload `{ user: {id:2,name:"B"}, token: "" }`, the session's
token is set to the payload's token, yet the `Authorization` header is
NOT attached and nothing is persisted (the token effect treats the
empty string as falsy), contradicting the claim that the payload's
token is always attached and persisted on success. -/
theorem c1_counterexample :
    (login anonSt (Except.ok { user := { id := 2, name := "B" }, token := "" })).1.token = some ""
    ∧ (login anonSt (Except.ok { user := { id := 2, name := "B" }, token := "" })).1.authHeader = none
    ∧ (login anonSt (Except.ok { user := { id := 2, name := "B" }, token := "" })).1.storage = none
    ∧ (login anonSt (Except.ok { user := { id := 2, name := "B" }, token := "" })).1.authHeader
        ≠ some ("Bearer " ++ "") := by
  decide

/-- C1 (amended): for every `login` call whose remote request resolves
successfully with a non-empty payload token, afterwards the session's
user equals the payload's user, the session's token equals the
payload's token, that token is attached as `Authorization: Bearer
<token>` and written to the persistence store, `loading` is untouched,
and the returned result is the success result carrying the profile. -/
theorem c1_login_success (s : St) (p : AuthPayload)
    (h : p.token.isEmpty = false) :
    login s (Except.ok p)
      = ({ token := some p.token, user := some p.user, loading := s.loading,
           authHeader := some ("Bearer " ++ p.token), storage := some p.token },
         AuthResult.ok p.user) := by
  simp [login, setToken, applyTokenEffect, h]

/-- C1 witness: the amended success contract evaluated at the anonymous
state and the payload `{ user: {id:2,name:"B"}, token: "xyz" }`. -/
theorem c1_login_success_witness :
    ("xyz" : String).isEmpty = false
    ∧ login anonSt (Except.ok { user := { id := 2, name := "B" }, token := "xyz" })
        = ({ token := some "xyz", user := some { id := 2, name := "B" }, loading := false,
             authHeader := some ("Bearer " ++ "xyz"), storage := some "xyz" },
           AuthResult.ok { id := 2, name := "B" }) :=
  ⟨by decide,
   c1_login_success anonSt { user := { id := 2, name := "B" }, token := "xyz" } (by decide)⟩

/-- C2: for every `login` call whose remote request rejects, the whole
session state (token, user, loading, attached credential, persisted
token) is exactly what it was before, the call resolves to the failure
result (it cannot throw: the model is a total function), and the
carried reason is non-empty — the remote payload's `error` field when
that is present and non-empty, otherwise the generic `"Login failed"`. -/
theorem c2_login_failure (s : St) (e : RemoteError) :
    (login s (Except.error e)).1 = s
    ∧ (login s (Except.error e)).2 = AuthResult.fail (errMessage "Login failed" e)
    ∧ (errMessage "Login failed" e).isEmpty = false
    ∧ errMessage "Login failed" { reason := none } = "Login failed" := by
  refine ⟨rfl, rfl, ?_, rfl⟩
  rcases he : e.reason with _ | r
  · simp [errMessage, he]
    decide
  · by_cases hr : r.isEmpty = true
    · simp [errMessage, he, hr]
      decide
    · simp [errMessage, he, hr]

/-- C3: from every starting state and for either outcome of the remote
revoke call, after `logout()` the token is cleared, the user is
cleared, the `Authorization` header is detached, the persisted token is
erased, and nothing is reported to the caller (the model returns only
the new state); `loading` is the one field logout leaves alone. -/
theorem c3_logout_always_clears (s : St) (remoteOk : Bool) :
    logout s remoteOk
      = { token := none, user := none, loading := s.loading,
          authHeader := none, storage := none } := rfl

/-- C4: `logout()` is idempotent — for every starting state and any
remote outcomes, running it twice ends in exactly the state that
running it once produces. -/
theorem c4_logout_idempotent (s : St) (r1 r2 : Bool) :
    logout (logout s r1) r2 = logout s r1 := rfl

/-- C5 counterexample: a malformed who-am-I response that resolves (a
`200` body without a `user` field, modelled `RestoreOutcome.ok none`)
is not a rejection, so the catch never fires: from an authenticated
state with token `"abc"`, after `checkAuth` the token, the
`Authorization` header and the persisted token all survive — the
claimed clearing does not happen on this failing run. -/
theorem c5_counterexample :
    (checkAuth { token := some "abc", user := some { id := 1, name := "A" },
                 loading := true, authHeader := some ("Bearer " ++ "abc"),
                 storage := some "abc" } (RestoreOutcome.ok none) true).1.token
        = some "abc"
    ∧ (checkAuth { token := some "abc", user := some { id := 1, name := "A" },
                   loading := true, authHeader := some ("Bearer " ++ "abc"),
                   storage := some "abc" } (RestoreOutcome.ok none) true).1.authHeader
        = some ("Bearer " ++ "abc")
    ∧ (checkAuth { token := some "abc", user := some { id := 1, name := "A" },
                   loading := true, authHeader := some ("Bearer " ++ "abc"),
                   storage := some "abc" } (RestoreOutcome.ok none) true).1.storage
        = some "abc"
    ∧ (checkAuth { token := some "abc", user := some { id := 1, name := "A" },
                   loading := true, authHeader := some ("Bearer " ++ "abc"),
                   storage := some "abc" } (RestoreOutcome.ok none) true).1.token
        ≠ none := by
  decide

/-- C5 (amended): `checkAuth` (the restore step) is a total function,
so it never propagates an error; whenever the who-am-I query is issued
(the token is truthy) and its promise REJECTS (rejected credential,
network error, a response whose handling throws), afterwards the token
is cleared, the user is cleared, the credential is detached, the
persisted token is erased, and `loading` is false.  A malformed
response that RESOLVES (body lacking the `user` field) is not treated
as a failure: the token, the attached credential and the persisted
token are kept unchanged, the user is set to the absent value, and
`loading` is set to false. -/
theorem c5_restore_failure_clears (s : St) (remoteOk : Bool)
    (h : truthy s.token = true) :
    checkAuth s RestoreOutcome.err remoteOk
      = ({ token := none, user := none, loading := false,
           authHeader := none, storage := none }, true)
    ∧ (checkAuth s (RestoreOutcome.ok none) remoteOk).1
        = { s with user := none, loading := false } := by
  constructor
  · simp [checkAuth, h, logout, setToken, applyTokenEffect]
  · simp [checkAuth, h]

/-- C5 witness: the amended restore contract evaluated at a fully
authenticated state holding token `"abc"`. -/
theorem c5_restore_failure_clears_witness :
    truthy (some "abc") = true
    ∧ (checkAuth { token := some "abc", user := some { id := 1, name := "A" },
                   loading := true, authHeader := some ("Bearer " ++ "abc"),
                   storage := some "abc" } RestoreOutcome.err true
        = ({ token := none, user := none, loading := false,
             authHeader := none, storage := none }, true)
       ∧ (checkAuth { token := some "abc", user := some { id := 1, name := "A" },
                      loading := true, authHeader := some ("Bearer " ++ "abc"),
                      storage := some "abc" } (RestoreOutcome.ok none) true).1
          = { token := some "abc", user := none, loading := false,
              authHeader := some ("Bearer " ++ "abc"), storage := some "abc" }) :=
  ⟨by decide,
   c5_restore_failure_clears
     { token := some "abc", user := some { id := 1, name := "A" },
       loading := true, authHeader := some ("Bearer " ++ "abc"),
       storage := some "abc" } true (by decide)⟩

lemma invB_applyTokenEffect (s : St) : invB (applyTokenEffect s) = invB s := by
  unfold invB applyTokenEffect
  cases s.token with
  | none => rfl
  | some t => by_cases h : t.isEmpty = true <;> simp [h]

lemma invB_setToken (s : St) (t : Option String) :
    invB (setToken s t) = invB { s with token := t } :=
  invB_applyTokenEffect { s with token := t }

lemma invB_checkAuth (s : St) (o : RestoreOutcome) (rOk : Bool)
    (h : invB s = true) : invB (checkAuth s o rOk).1 = true := by
  unfold checkAuth
  by_cases ht : truthy s.token = true
  · cases o with
    | ok u0 => simp [ht, invB, truthy_isSome ht]
    | err => simp [ht, invB, logout, setToken, applyTokenEffect]
  · simpa [ht, invB] using h

lemma pairedB_applyTokenEffect (s : St) : pairedB (applyTokenEffect s) = true := by
  unfold applyTokenEffect
  cases htok : s.token with
  | none => simp [pairedB]
  | some t =>
      by_cases h : t.isEmpty = true
      · simp [pairedB, htok, h]
      · simp [pairedB, htok, h]

lemma pairedB_setToken (s : St) (t : Option String) :
    pairedB (setToken s t) = true :=
  pairedB_applyTokenEffect { s with token := t }

lemma pairedB_user_loading (s : St) (u : Option UserProfile) (b : Bool) :
    pairedB { s with user := u, loading := b } = pairedB s := rfl

lemma pairedB_checkAuth (s : St) (o : RestoreOutcome) (rOk : Bool)
    (h : pairedB s = true) : pairedB (checkAuth s o rOk).1 = true := by
  unfold checkAuth
  by_cases ht : truthy s.token = true
  · cases o with
    | ok u0 => simpa [ht, pairedB] using h
    | err =>
        simp only [ht, if_true]
        have : pairedB (logout s rOk) = true := by
          simp [logout, setToken, applyTokenEffect, pairedB]
        simpa [pairedB] using this
  · simpa [ht, pairedB] using h

/-- C6: the session invariant — whenever `user` is non-empty, `token`
is non-empty too (token-set-but-user-empty being the one permitted
asymmetry) — is preserved or outright established by every operation:
`login` and `register` on both outcomes, `logout`, `checkAuth`
(restore) on both outcomes, `handleOAuthSuccess` (external login
completion), and the full construction sequence. -/
theorem c6_session_invariant (s : St) (p : AuthPayload) (e : RemoteError)
    (u0 : Option UserProfile) (rOk : Bool) (t : String) (u : UserProfile)
    (stored : Option String) (o : RestoreOutcome)
    (h : invB s = true) :
    invB (login s (Except.ok p)).1 = true
    ∧ invB (login s (Except.error e)).1 = true
    ∧ invB (register s (Except.ok p)).1 = true
    ∧ invB (register s (Except.error e)).1 = true
    ∧ invB (logout s rOk) = true
    ∧ invB (checkAuth s (RestoreOutcome.ok u0) rOk).1 = true
    ∧ invB (checkAuth s RestoreOutcome.err rOk).1 = true
    ∧ invB (handleOAuthSuccess s t u) = true
    ∧ invB (mount stored o rOk).1 = true := by
  refine ⟨?_, h, ?_, h, ?_, ?_, ?_, ?_, ?_⟩
  · show invB (setToken { s with user := some p.user } (some p.token)) = true
    rw [invB_setToken]
    simp [invB]
  · show invB (setToken { s with user := some p.user } (some p.token)) = true
    rw [invB_setToken]
    simp [invB]
  · simp [logout, setToken, applyTokenEffect, invB]
  · exact invB_checkAuth s (RestoreOutcome.ok u0) rOk h
  · exact invB_checkAuth s RestoreOutcome.err rOk h
  · simp [handleOAuthSuccess, setToken, applyTokenEffect, invB]
    by_cases ht : t.isEmpty = true <;> simp [ht]
  · exact invB_checkAuth _ o rOk
      (by rw [invB_applyTokenEffect]; simp [initState, invB])

/-- C6 witness: the invariant-preservation theorem evaluated at the
anonymous state with concrete payloads, outcomes and arguments. -/
theorem c6_session_invariant_witness :
    invB (login anonSt (Except.ok { user := { id := 2, name := "B" }, token := "xyz" })).1 = true
    ∧ invB (login anonSt (Except.error { reason := some "Bad" })).1 = true
    ∧ invB (register anonSt (Except.ok { user := { id := 2, name := "B" }, token := "xyz" })).1 = true
    ∧ invB (register anonSt (Except.error { reason := some "Bad" })).1 = true
    ∧ invB (logout anonSt true) = true
    ∧ invB (checkAuth anonSt (RestoreOutcome.ok (some { id := 1, name := "A" })) true).1 = true
    ∧ invB (checkAuth anonSt RestoreOutcome.err true).1 = true
    ∧ invB (handleOAuthSuccess anonSt "tok" { id := 3, name := "C" }) = true
    ∧ invB (mount (some "abc") RestoreOutcome.err true).1 = true :=
  c6_session_invariant anonSt { user := { id := 2, name := "B" }, token := "xyz" }
    { reason := some "Bad" } (some { id := 1, name := "A" }) true "tok"
    { id := 3, name := "C" } (some "abc") RestoreOutcome.err (by decide)

/-- C7: the pairing invariant — a truthy session token is mirrored
exactly by the `Authorization: Bearer <token>` header and by the
persisted value under the well-known key, and a falsy token by an
absent header and an erased key — is established by the token effect
itself and holds after every operation (it is preserved by the
no-mutation paths and re-established by every path that sets the
token). -/
theorem c7_pairing_invariant (s : St) (p : AuthPayload) (e : RemoteError)
    (u0 : Option UserProfile) (rOk : Bool) (t : String) (u : UserProfile)
    (stored : Option String) (o : RestoreOutcome)
    (h : pairedB s = true) :
    pairedB (applyTokenEffect s) = true
    ∧ pairedB (login s (Except.ok p)).1 = true
    ∧ pairedB (login s (Except.error e)).1 = true
    ∧ pairedB (register s (Except.ok p)).1 = true
    ∧ pairedB (register s (Except.error e)).1 = true
    ∧ pairedB (logout s rOk) = true
    ∧ pairedB (checkAuth s (RestoreOutcome.ok u0) rOk).1 = true
    ∧ pairedB (checkAuth s RestoreOutcome.err rOk).1 = true
    ∧ pairedB (handleOAuthSuccess s t u) = true
    ∧ pairedB (mount stored o rOk).1 = true := by
  refine ⟨pairedB_applyTokenEffect s, ?_, h, ?_, h, ?_, ?_, ?_, ?_, ?_⟩
  · exact pairedB_setToken { s with user := some p.user } (some p.token)
  · exact pairedB_setToken { s with user := some p.user } (some p.token)
  · simp [logout, setToken, applyTokenEffect, pairedB]
  · exact pairedB_checkAuth s (RestoreOutcome.ok u0) rOk h
  · exact pairedB_checkAuth s RestoreOutcome.err rOk h
  · have := pairedB_setToken s (some t)
    simpa [handleOAuthSuccess, pairedB] using this
  · exact pairedB_checkAuth _ o rOk (pairedB_applyTokenEffect (initState stored))

/-- C7 witness: the pairing theorem evaluated at the anonymous state
with concrete payloads, outcomes and arguments. -/
theorem c7_pairing_invariant_witness :
    pairedB (applyTokenEffect anonSt) = true
    ∧ pairedB (login anonSt (Except.ok { user := { id := 2, name := "B" }, token := "xyz" })).1 = true
    ∧ pairedB (login anonSt (Except.error { reason := some "Bad" })).1 = true
    ∧ pairedB (register anonSt (Except.ok { user := { id := 2, name := "B" }, token := "xyz" })).1 = true
    ∧ pairedB (register anonSt (Except.error { reason := some "Bad" })).1 = true
    ∧ pairedB (logout anonSt true) = true
    ∧ pairedB (checkAuth anonSt (RestoreOutcome.ok (some { id := 1, name := "A" })) true).1 = true
    ∧ pairedB (checkAuth anonSt RestoreOutcome.err true).1 = true
    ∧ pairedB (handleOAuthSuccess anonSt "tok" { id := 3, name := "C" }) = true
    ∧ pairedB (mount (some "abc") RestoreOutcome.err true).1 = true :=
  c7_pairing_invariant anonSt { user := { id := 2, name := "B" }, token := "xyz" }
    { reason := some "Bad" } (some { id := 1, name := "A" }) true "tok"
    { id := 3, name := "C" } (some "abc") RestoreOutcome.err (by decide)

/-- C8: constructing the session manager over an empty persistence
store ends in the anonymous state — token empty, user empty,
`loading = false`, no `Authorization` header attached, nothing
persisted — and the restore step issues no remote call (the returned
flag is `false`), whatever outcome the transport would have produced
and whatever the revoke outcome would be. -/
theorem c8_mount_no_stored_token (o : RestoreOutcome) (rOk : Bool) :
    mount none o rOk
      = ({ token := none, user := none, loading := false,
           authHeader := none, storage := none }, false) := rfl

/-- C9: `register` has the same contract as `login` — for the same
successful outcome it produces exactly the same state and the same
success result; for the same failed outcome both leave the state
untouched and return a failure result of the same shape built by the
same `error.response?.data?.error || default` rule, each with a
non-empty message; they differ only in the request issued (and its
generic fallback text). -/
theorem c9_register_like_login (s : St) (p : AuthPayload) (e : RemoteError) :
    register s (Except.ok p) = login s (Except.ok p)
    ∧ (register s (Except.error e)).1 = s
    ∧ (login s (Except.error e)).1 = s
    ∧ (register s (Except.error e)).2
        = AuthResult.fail (errMessage "Registration failed" e)
    ∧ (login s (Except.error e)).2
        = AuthResult.fail (errMessage "Login failed" e)
    ∧ (errMessage "Registration failed" e).isEmpty = false
    ∧ (errMessage "Login failed" e).isEmpty = false := by
  refine ⟨rfl, rfl, rfl, rfl, rfl, ?_, ?_⟩ <;>
  · rcases he : e.reason with _ | r
    · simp [errMessage, he]
      decide
    · by_cases hr : r.isEmpty = true
      · simp [errMessage, he, hr]
        decide
      · simp [errMessage, he, hr]

/-- C10: `API_URL` is a pure function of the environment value and the
window origin; it agrees everywhere with a definition transcribed from
the claim's words (set-and-non-empty value: trailing slashes stripped,
`/api` appended unless already the suffix; otherwise origin + `/api`,
or the relative `/api` with no window, never a hard-coded localhost),
and the concrete corner cases evaluate as the claim describes. -/
theorem c10_api_url (vite : Option String) (origin : Option String)
    (org : String) :
    API_URL vite origin = API_URL_fromClaim vite origin
    ∧ API_URL none (some org) = org ++ "/api"
    ∧ API_URL none none = "/api"
    ∧ API_URL (some "http://x//") none = "http://x/api"
    ∧ API_URL (some "http://x/api") none = "http://x/api"
    ∧ API_URL (some "http://x/api/") none = "http://x/api"
    ∧ API_URL (some "http://x") (some "http://y") = "http://x/api" := by
  refine ⟨?_, rfl, rfl, by decide, by decide, by decide, by decide⟩
  cases vite with
  | none => cases origin <;> rfl
  | some v =>
      by_cases h : v.isEmpty = true
      · cases origin <;>
          simp [API_URL, API_URL_fromClaim, truthy, h, originFallback]
      · simp [API_URL, API_URL_fromClaim, truthy, h]

end ChatApp
